import Mathlib

/-!
Shallow embedding of the fetch-wrapper library (src/index.ts and
src/interceptorManager.ts): the request-normalization helpers, the
interceptor registry, the timeout/cancellation classification, the
retry loop of CommonRequest.request, and the download-progress path.

JavaScript values are modelled as follows: request bodies become the
closed variant type Body; JS errors become a record of their name and
message strings; the Headers object becomes an association list with
lower-cased keys; the opaque transport (fetch) and the XHR upload
transport become an explicit environment of outcomes.
-/

/-- A JSON value, as produced by the caller in the data option. -/
inductive Json where
  | jnull : Json
  | jbool : Bool → Json
  | jnum : Int → Json
  | jstr : String → Json
  | jarr : List Json → Json
  | jobj : List (String × Json) → Json

mutual

/-- JSON.stringify on a Json value (keys and strings in this development
contain no characters that need escaping). -/
def jsonStringify : Json → String
  | Json.jnull => "null"
  | Json.jbool b => if b then "true" else "false"
  | Json.jnum n => toString n
  | Json.jstr s => "\"" ++ s ++ "\""
  | Json.jarr xs => "[" ++ jsonStringifyArr xs ++ "]"
  | Json.jobj kvs => "\x7b" ++ jsonStringifyMembers kvs ++ "\x7d"

/-- Comma-separated stringification of a JSON array's elements. -/
def jsonStringifyArr : List Json → String
  | [] => ""
  | [x] => jsonStringify x
  | x :: rest => jsonStringify x ++ "," ++ jsonStringifyArr rest

/-- Comma-separated stringification of a JSON object's members. -/
def jsonStringifyMembers : List (String × Json) → String
  | [] => ""
  | [kv] => "\"" ++ kv.1 ++ "\":" ++ jsonStringify kv.2
  | kv :: rest =>
      "\"" ++ kv.1 ++ "\":" ++ jsonStringify kv.2 ++ "," ++ jsonStringifyMembers rest

end

/-- A request body value. The variants cover the shapes the source
distinguishes: absent (undefined/null), string, URLSearchParams,
FormData, Blob (with its MIME type), ArrayBuffer, a live ReadableStream
(tagged with an identity so that resubmission of the same stream is
visible), a plain structured object, and a number (a truthy non-object,
reaching the final else of isBodyReusable). -/
inductive Body where
  | none : Body
  | str : String → Body
  | urlSearchParams : List (String × String) → Body
  | formData : Body
  | blob : String → Body
  | arrayBuffer : Body
  | stream : Nat → Body
  | obj : Json → Body
  | num : Int → Body

/-- JavaScript truthiness of a body value: undefined/null, the empty
string and the number 0 are falsy; every object is truthy. -/
def Body.truthy : Body → Bool
  | Body.none => false
  | Body.str s => s ≠ ""
  | Body.num n => n ≠ 0
  | _ => true

/-- A JS Error as the pipeline observes it: its name (the stable
discriminator the code branches on) and its message. -/
structure JsError where
  name : String
  message : String
deriving DecidableEq, Repr

/-- Headers: association list, keys stored lower-cased (JS Headers is
case-insensitive; the source reads Content-Type and content-type). -/
abbrev Headers := List (String × String)

/-- ASCII lower-casing of one character. -/
def lowerChar (c : Char) : Char :=
  if 'A' ≤ c ∧ c ≤ 'Z' then Char.ofNat (c.toNat + 32) else c

/-- ASCII lower-casing of a string (header names and content types are
ASCII). -/
def lowerStr (s : String) : String :=
  String.mk (s.data.map lowerChar)

/-- Headers.get: case-insensitive lookup, null (none) when absent. -/
def hGet (h : Headers) (k : String) : Option String :=
  (h.find? (fun p => p.1 == lowerStr k)).map Prod.snd

/-- Headers.set: replace the value under the (lower-cased) key, or
append the pair when the key is absent. -/
def hSet (h : Headers) (k v : String) : Headers :=
  if (h.find? (fun p => p.1 == lowerStr k)).isSome then
    h.map (fun p => if p.1 == lowerStr k then (p.1, v) else p)
  else
    h ++ [(lowerStr k, v)]

/-- Prefix test on character lists. -/
def charListPrefix : List Char → List Char → Bool
  | [], _ => true
  | _ :: _, [] => false
  | a :: as, b :: bs => a == b && charListPrefix as bs

/-- Contiguous-occurrence test on character lists. -/
def charListContains (hay needle : List Char) : Bool :=
  if charListPrefix needle hay then true
  else
    match hay with
    | [] => false
    | _ :: t => charListContains t needle

/-- Substring test, modelling String.prototype.includes. -/
def includesSubstr (s t : String) : Bool :=
  charListContains s.data t.data

/-- detectContentType from src/index.ts: sniff a content type from the
body shape. A ReadableStream is an object, so it falls into the
typeof body === 'object' branch and yields application/json; a number
falls through every branch and yields undefined. -/
def detectContentType : Body → Option String
  | Body.str _ => some "text/plain;charset=UTF-8"
  | Body.formData => Option.none
  | Body.urlSearchParams _ => some "application/x-www-form-urlencoded;charset=UTF-8"
  | Body.blob t => some (if t = "" then "application/octet-stream" else t)
  | Body.arrayBuffer => some "application/octet-stream"
  | Body.stream _ => some "application/json"
  | Body.obj _ => some "application/json"
  | Body.num _ => Option.none
  | Body.none => Option.none

/-- isBodyReusable from src/index.ts, branch for branch: falsy bodies,
strings, URLSearchParams, FormData, Blob, ArrayBuffer are reusable;
then the typeof body === 'object' branch returns true — which a
ReadableStream also satisfies, so a stream is classified reusable
(even though the function's own comment calls streams not reusable);
only truthy non-object non-strings (here: nonzero numbers) reach the
final return false. -/
def isBodyReusable (b : Body) : Bool :=
  if !b.truthy then true
  else
    match b with
    | Body.str _ => true
    | Body.urlSearchParams _ => true
    | Body.formData => true
    | Body.blob _ => true
    | Body.arrayBuffer => true
    | Body.stream _ => true
    | Body.obj _ => true
    | Body.num _ => false
    | Body.none => true

/-- structuredClone on a body value: a value-identical deep copy for
cloneable values; none models the DataCloneError thrown on a
ReadableStream (streams are not serializable). -/
def structuredCloneB : Body → Option Body
  | Body.stream _ => Option.none
  | b => some b

/-- The recognized request options, after merging with the instance
defaults (so timeout, retries and retryDelay are concrete). data is the
logical body from the caller, body the wire body set by normalization,
bodyCopy the retry copy. The progress callbacks are modelled by their
presence. URL params and the requestType/responseType tags do not
affect any claim and are omitted. -/
structure RequestOptions where
  method : Option String
  headers : Headers
  data : Body
  body : Body
  bodyCopy : Option Body
  timeout : Nat
  retries : Nat
  retryDelay : Nat
  onDownloadProgress : Bool
  onUploadProgress : Bool

/-- The options object as the caller passes it: absent fields are none
and fall back to CommonRequest.defaults under the object spread. -/
structure UserOptions where
  method : Option String := Option.none
  headers : Headers := []
  data : Body := Body.none
  timeout : Option Nat := Option.none
  retries : Option Nat := Option.none
  retryDelay : Option Nat := Option.none
  onDownloadProgress : Bool := false
  onUploadProgress : Bool := false

/-- The spread-merge of CommonRequest.defaults (timeout 5000, retries 0,
retryDelay 2000) with the caller's options, as in request(). -/
def mergeDefaults (u : UserOptions) : RequestOptions :=
  { method := u.method
    headers := u.headers
    data := u.data
    body := Body.none
    bodyCopy := Option.none
    timeout := u.timeout.getD 5000
    retries := u.retries.getD 0
    retryDelay := u.retryDelay.getD 2000
    onDownloadProgress := u.onDownloadProgress
    onUploadProgress := u.onUploadProgress }

/-- The pre-existing Content-Type header value, with the JS empty-string
fallback (headers.get returns null when absent, coerced by the two
lookups and the final or-empty in normalizeRequestOptions). -/
def existingContentType (opts : RequestOptions) : String :=
  (hGet opts.headers "Content-Type").getD ""

/-- Header normalization step of normalizeRequestOptions: when no
Content-Type is set and a type can be sniffed from the body, set it. -/
def normalizedHeaders (opts : RequestOptions) : Headers :=
  if existingContentType opts = "" then
    match detectContentType opts.data with
    | some ct => hSet opts.headers "Content-Type" ct
    | Option.none => opts.headers
  else
    opts.headers

/-- The shouldStringify condition of normalizeRequestOptions. It tests
contentTypeLower, which was read from the headers BEFORE the sniffed
type was set, so it only holds when the caller pre-set a JSON
Content-Type. The body must be defined, of object type, and not
FormData, Blob, ArrayBuffer or URLSearchParams; a plain object and a
ReadableStream both satisfy that. -/
def shouldStringify (opts : RequestOptions) : Bool :=
  includesSubstr (lowerStr (existingContentType opts)) "application/json" &&
    (match opts.data with
     | Body.obj _ => true
     | Body.stream _ => true
     | _ => false)

/-- JSON.stringify applied to the wire body in the shouldStringify
branch: a structured object serializes normally; a ReadableStream has
no own enumerable properties and serializes to the empty object. The
remaining variants never reach this call. -/
def bodyJsonStringify : Body → String
  | Body.obj j => jsonStringify j
  | Body.stream _ => "\x7b\x7d"
  | _ => ""

/-- Body normalization step of normalizeRequestOptions: options.body is
the data, stringified when shouldStringify holds. -/
def normalizedBody (opts : RequestOptions) : Body :=
  if shouldStringify opts then Body.str (bodyJsonStringify opts.data) else opts.data

/-- normalizeRequestOptions from src/index.ts: set the sniffed
Content-Type when none exists, stringify a JSON body, and store a
structuredClone of the body in bodyCopy when the body is truthy and
not reusable (the GET URL-params step and the signal default do not
affect any claim: the signal state is carried by the environment). -/
def normalizeRequestOptions (opts : RequestOptions) : RequestOptions :=
  { opts with
    headers := normalizedHeaders opts
    body := normalizedBody opts
    bodyCopy :=
      if (normalizedBody opts).truthy && !(isBodyReusable (normalizedBody opts)) then
        structuredCloneB (normalizedBody opts)
      else
        Option.none }

/-- A Response value: ok flag, status, statusText, headers, and the
body as an optional list of byte chunks (null body is none). -/
structure Resp where
  ok : Bool
  status : Nat
  statusText : String
  headers : Headers
  body : Option (List (List Nat))
deriving DecidableEq, Repr

/-- The abort classification shared by the catch blocks of
timeoutPromise and downloadWithProgress: an AbortError from fetch is
rewritten to a user-cancellation AbortError when the user signal is in
the aborted state at catch time, and to a TimeoutError otherwise; any
other error is rethrown untouched. -/
def classifyCatch (userAborted : Bool) (e : JsError) : JsError :=
  if e.name = "AbortError" then
    if userAborted then
      { name := "AbortError", message := "Request aborted by user" }
    else
      { name := "TimeoutError", message := "Request timed out" }
  else
    e

/-- timeoutPromise from src/index.ts, as a function of the fetch
outcome under the composed signal and of the user signal's state when
the failure is observed. The deadline timer and the abort listener
only influence WHICH outcome the environment produces (an already
aborted user signal aborts the controller immediately; the timer, set
only when the timeout is nonzero, aborts it later); the value returned
or thrown is fully determined by these two arguments. -/
def timeoutPromiseResult (userAborted : Bool) (fetchOutcome : Except JsError Resp) :
    Except JsError Resp :=
  match fetchOutcome with
  | Except.ok r => Except.ok r
  | Except.error e => Except.error (classifyCatch userAborted e)

/-- InterceptorManager from src/interceptorManager.ts: a Map from ids
to callbacks (modelled as an insertion-ordered association list, which
is what a JS Map is; use always inserts a fresh key, so append is the
Map.set of the source), the id order list, and the id counter. -/
structure InterceptorManager (T : Type) where
  interceptors : List (Nat × T)
  interceptorIds : List Nat
  nextId : Nat

/-- The freshly constructed manager. -/
def mEmpty (T : Type) : InterceptorManager T :=
  { interceptors := [], interceptorIds := [], nextId := 0 }

/-- use: allocate the next id, record it, store the callback, return
the id together with the updated manager. -/
def mUse {T : Type} (m : InterceptorManager T) (t : T) : Nat × InterceptorManager T :=
  (m.nextId,
   { interceptors := m.interceptors ++ [(m.nextId, t)]
     interceptorIds := m.interceptorIds ++ [m.nextId]
     nextId := m.nextId + 1 })

/-- eject: drop the id from the order list and the callback from the
map (a no-op for an unknown id). -/
def mEject {T : Type} (m : InterceptorManager T) (id : Nat) : InterceptorManager T :=
  { m with
    interceptorIds := m.interceptorIds.filter (fun i => i != id)
    interceptors := m.interceptors.filter (fun p => p.1 != id) }

/-- size: the Map's size. -/
def mSize {T : Type} (m : InterceptorManager T) : Nat :=
  m.interceptors.length

/-- Map.get on the interceptor map. -/
def mGet {T : Type} (m : InterceptorManager T) (id : Nat) : Option T :=
  (m.interceptors.find? (fun p => p.1 == id)).map Prod.snd

/-- forEachAsync: the callbacks visited, in interceptorIds order,
skipping ids whose map entry is gone. -/
def mForEachList {T : Type} (m : InterceptorManager T) : List T :=
  m.interceptorIds.filterMap (fun id => mGet m id)

/-- One registry operation: a use (with its callback) or an eject. -/
inductive MOp (T : Type) where
  | use : T → MOp T
  | eject : Nat → MOp T

/-- Apply one operation to a manager. -/
def applyMOp {T : Type} (m : InterceptorManager T) : MOp T → InterceptorManager T
  | MOp.use t => (mUse m t).2
  | MOp.eject id => mEject m id

/-- Apply a sequence of operations, left to right. -/
def applyMOps {T : Type} (m : InterceptorManager T) : List (MOp T) → InterceptorManager T
  | [] => m
  | op :: rest => applyMOps (applyMOp m op) rest

/-- The ids handed back by the use calls of an operation sequence, in
call order. -/
def opsReturnedIds {T : Type} (m : InterceptorManager T) : List (MOp T) → List Nat
  | [] => []
  | MOp.use t :: rest => m.nextId :: opsReturnedIds (applyMOp m (MOp.use t)) rest
  | MOp.eject id :: rest => opsReturnedIds (applyMOp m (MOp.eject id)) rest

/-- The request context handed to request interceptors. -/
structure RequestContext where
  url : String
  options : RequestOptions

/-- The partial context a request interceptor may return: either field
may be absent, in which of the previous value is kept. -/
structure PartialRequestContext where
  url : Option String := Option.none
  options : Option RequestOptions := Option.none

/-- A request interceptor: receives a context and returns a partial
replacement, or nothing at all. -/
def ReqInterceptor : Type := RequestContext → Option PartialRequestContext

/-- applyRequestInterceptors from src/index.ts: newCtx starts at the
incoming context and folds the interceptor results; note that the
source invokes every interceptor with ctx — the ORIGINAL context —
while the accumulation happens on newCtx, so later interceptors never
see earlier replacements. The empty-registry early return coincides
with the empty fold. -/
def applyRequestInterceptors (is : List ReqInterceptor) (ctx : RequestContext) :
    RequestContext :=
  is.foldl
    (fun newCtx i =>
      match i ctx with
      | some r => { url := r.url.getD newCtx.url, options := r.options.getD newCtx.options }
      | Option.none => newCtx)
    ctx

/-- The interceptor chain semantics the specification describes: each
callback is invoked with the in-flight context as replaced by the
previous callbacks. This definition follows the spec's words and is
compared against applyRequestInterceptors. -/
def applyRequestInterceptorsSpec (is : List ReqInterceptor) (ctx : RequestContext) :
    RequestContext :=
  is.foldl
    (fun cur i =>
      match i cur with
      | some r => { url := r.url.getD cur.url, options := r.options.getD cur.options }
      | Option.none => cur)
    ctx

/-- applyResponseInterceptors from src/index.ts: forEachReverseAsync
feeds the response through the registered callbacks from the LAST
registration to the first; the empty-registry early return coincides
with the empty fold. Callbacks are modelled as total response
transformers. -/
def applyResponseInterceptors (ris : List (Resp → Resp)) (r : Resp) : Resp :=
  ris.foldr (fun f acc => f acc) r

/-- The transport environment of one logical request: the outcome fetch
produces on attempt i when the wire body b is submitted, the user
signal's aborted state as observed when attempt i fails, and the
outcome of the XHR upload transport (opaque per the specification). -/
structure Env where
  fetch : Nat → Body → Except JsError Resp
  userAbortedAtCatch : Nat → Bool
  uploadOutcome : Except JsError Resp

/-- The body submitted on an attempt: the source runs
if (options.bodyCopy) options.body = options.bodyCopy before every
attempt, so a truthy bodyCopy replaces the body; otherwise the
normalized body is submitted unchanged. -/
def attemptBody (o : RequestOptions) : Body :=
  match o.bodyCopy with
  | some c => if c.truthy then c else o.body
  | Option.none => o.body

/-- The classified outcome of attempt i: the fetch outcome under the
composed signal, passed through timeoutPromise's catch. -/
def classifiedOutcome (env : Env) (o : RequestOptions) (i : Nat) : Except JsError Resp :=
  timeoutPromiseResult (env.userAbortedAtCatch i) (env.fetch i (attemptBody o))

/-- The while loop of CommonRequest.request, for the direct (non
progress) path. attempt is the loop counter, remaining the attempts
still allowed after the present one (retries minus attempt). On
success the response interceptors are applied and the result returned
at once; an AbortError or TimeoutError is thrown without retrying;
other errors retry while budget remains, and the last error is thrown
when it runs out. The returned list collects the body submitted on
each transport invocation, so its length is the invocation count. -/
def requestLoop (env : Env) (ris : List (Resp → Resp)) (o : RequestOptions) :
    Nat → Nat → Except JsError Resp × List Body
  | attempt, remaining =>
    match timeoutPromiseResult (env.userAbortedAtCatch attempt)
        (env.fetch attempt (attemptBody o)) with
    | Except.ok r => (Except.ok (applyResponseInterceptors ris r), [attemptBody o])
    | Except.error e =>
      if e.name = "AbortError" ∨ e.name = "TimeoutError" then
        (Except.error e, [attemptBody o])
      else
        match remaining with
        | 0 => (Except.error e, [attemptBody o])
        | remaining' + 1 =>
          ((requestLoop env ris o (attempt + 1) remaining').1,
           attemptBody o :: (requestLoop env ris o (attempt + 1) remaining').2)

/-- One download progress event, as passed to onDownloadProgress:
finished bytes, the Content-Length total (none models NaN from an
absent or unparsable header), and the progress ratio, which the source
computes as receivedLength / total when total is truthy and -1
otherwise (NaN and 0 are both falsy). -/
structure ProgressEvent where
  finished : Nat
  total : Option Nat
  progress : Rat
deriving DecidableEq, Repr

/-- The ratio reported for a given received count and total. -/
def progressRatio (finished : Nat) (total : Option Nat) : Rat :=
  match total with
  | some t => if t ≠ 0 then (finished : Rat) / (t : Rat) else -1
  | Option.none => -1

/-- The drain loop of downloadWithProgress over the metrics copy of the
teed stream: one event per chunk, with the running byte count. -/
def downloadEvents (total : Option Nat) (received : Nat) :
    List (List Nat) → List ProgressEvent
  | [] => []
  | chunk :: rest =>
    let received' := received + chunk.length
    { finished := received', total := total, progress := progressRatio received' total }
      :: downloadEvents total received' rest

/-- downloadWithProgress from src/index.ts: one fetch under the
composed user signal; a missing body or a non-ok status throws an
HTTP error; otherwise the body stream is teed (both copies carry the
same chunks), the metrics copy is drained for progress events, and the
caller receives new Response(stream2) — a response built from the
caller copy ALONE, hence with the constructor's defaults: status 200,
ok, empty statusText, no headers. The catch classifies AbortError like
timeoutPromise does and rethrows everything else. -/
def downloadWithProgress (env : Env) (o : RequestOptions) :
    Except JsError Resp × List ProgressEvent :=
  match env.fetch 0 o.body with
  | Except.error e => (Except.error (classifyCatch (env.userAbortedAtCatch 0) e), [])
  | Except.ok res =>
    match res.body with
    | Option.none =>
      (Except.error { name := "Error", message := "HTTP error " ++ toString res.status }, [])
    | some chunks =>
      if res.ok then
        let total := (hGet res.headers "Content-Length").bind String.toNat?
        (Except.ok { ok := true, status := 200, statusText := "", headers := [],
                     body := some chunks },
         downloadEvents total 0 chunks)
      else
        (Except.error { name := "Error", message := "HTTP error " ++ toString res.status }, [])

/-- CommonRequest.request: normalize the merged options, apply the
request interceptors, then dispatch: the download-progress path and the
upload-progress path return their transport's outcome directly (one
transport invocation, no retry loop, no response interceptors); the
direct path runs the retry loop. The second component lists the body
submitted on each transport invocation. -/
def request (env : Env) (ris : List (Resp → Resp)) (reqIs : List ReqInterceptor)
    (url : String) (u : UserOptions) : Except JsError Resp × List Body :=
  let o0 := normalizeRequestOptions (mergeDefaults u)
  let ctx := applyRequestInterceptors reqIs { url := url, options := o0 }
  let o := ctx.options
  if o.onDownloadProgress then
    ((downloadWithProgress env o).1, [o.body])
  else if o.onUploadProgress then
    (env.uploadOutcome, [o.body])
  else
    requestLoop env ris o 0 o.retries

/-! Concrete fixtures and theorems for the individual claims. -/

/-- The options of the C7 scenario: request('/x', \x7bmethod:'POST', data:\x7ba:1\x7d\x7d). -/
def u7 : UserOptions :=
  { method := some "POST", data := Body.obj (Json.jobj [("a", Json.jnum 1)]) }

/-- The normalized options of the C7 scenario. -/
def o7 : RequestOptions := normalizeRequestOptions (mergeDefaults u7)

/-- C7: the claim says the transport request body equals the JSON
encoding of \x7ba:1\x7d and the Content-Type header equals
application/json;charset=utf-8. The code does neither: shouldStringify
reads the content type captured BEFORE the sniffed type is set, so
with no caller-set header the body is left as the raw object (fetch
would serialize it as [object Object]), and the header set is the
sniffed application/json — the defaultsHeaders constant carrying the
charset-suffixed value is never used. This evaluates the code at the
scenario's input and records both divergences. -/
theorem C7_post_json_normalization_behavior :
    o7.body = Body.obj (Json.jobj [("a", Json.jnum 1)])
    ∧ hGet o7.headers "Content-Type" = some "application/json"
    ∧ jsonStringify (Json.jobj [("a", Json.jnum 1)]) = "\x7b\"a\":1\x7d"
    ∧ o7.body ≠ Body.str (jsonStringify (Json.jobj [("a", Json.jnum 1)]))
    ∧ hGet o7.headers "Content-Type" ≠ some "application/json;charset=utf-8" := by
  refine ⟨rfl, rfl, rfl, fun h => Body.noConfusion h, by decide⟩

/-- The environment of the C1 scenario: fetch fails every attempt with
a generic (retryable) network error; the user signal never fires. -/
def envC1 : Env :=
  { fetch := fun _ _ => Except.error { name := "NetworkError", message := "network failure" }
    userAbortedAtCatch := fun _ => false
    uploadOutcome := Except.error { name := "NetworkError", message := "network failure" } }

/-- The user options of the C1 scenario: a ReadableStream body with
retries = 1. -/
def uC1 : UserOptions := { method := some "POST", data := Body.stream 7, retries := some 1 }

/-- C1: the claim says a non-replayable stream body with retries >= 1
surfaces a terminal BodyNotReplayable-classified error on the first
retry instead of resubmitting the body. The code does the opposite:
isBodyReusable classifies a ReadableStream as reusable (the
typeof-object branch, contradicting the function's own comment), no
copy is made, and after the first retryable failure the pipeline
performs a second transport attempt submitting the SAME stream; the
caller receives the plain network error — no BodyNotReplayable
classification exists anywhere in the code. This evaluates the full
pipeline at the scenario's input. -/
theorem C1_stream_body_is_resubmitted_on_retry :
    isBodyReusable (Body.stream 7) = true
    ∧ (normalizeRequestOptions (mergeDefaults uC1)).bodyCopy = Option.none
    ∧ (request envC1 [] [] "/x" uC1).2 = [Body.stream 7, Body.stream 7]
    ∧ (request envC1 [] [] "/x" uC1).1 =
        Except.error { name := "NetworkError", message := "network failure" } :=
  ⟨rfl, rfl, rfl, rfl⟩

/-- The user options of the C8 counterexample: a replayable string
body with retries = 2. -/
def u8 : UserOptions := { method := some "POST", data := Body.str "hello", retries := some 2 }

/-- C8 counterexample: the claim says normalization produces a
deep-copied snapshot of every replayable body, reused on retries. At
this concrete replayable input (a string body) normalization produces
NO copy at all: bodyCopy stays unset, refuting the claim as stated. -/
theorem C8_counterexample_no_snapshot_for_replayable :
    isBodyReusable (normalizeRequestOptions (mergeDefaults u8)).body = true
    ∧ (normalizeRequestOptions (mergeDefaults u8)).bodyCopy = Option.none :=
  ⟨rfl, rfl⟩

/-- Every body submitted by the retry loop equals the per-attempt body
attemptBody o: the loop re-runs the bodyCopy assignment before each
attempt and never writes any other value. -/
theorem requestLoop_bodies_const (env : Env) (ris : List (Resp → Resp)) (o : RequestOptions) :
    ∀ remaining attempt b, b ∈ (requestLoop env ris o attempt remaining).2 → b = attemptBody o := by
  intro remaining
  induction remaining with
  | zero =>
    intro attempt b hb
    rw [requestLoop] at hb
    split at hb
    · simpa using hb
    · split at hb
      · simpa using hb
      · simpa using hb
  | succ remaining' ih =>
    intro attempt b hb
    rw [requestLoop] at hb
    split at hb
    · simpa using hb
    · split at hb
      · simpa using hb
      · rcases List.mem_cons.mp hb with h | h
        · exact h
        · exact ih (attempt + 1) b h

/-- C8 (amended): for a body that normalization leaves replayable, no
deep-copied snapshot is produced — bodyCopy stays unset — and every
transport attempt of the retry loop submits the same normalized body
value unchanged (nothing in the loop rewrites or consumes it in the
model, so the original value is never mutated). -/
theorem C8_replayable_body_reused_without_copy (opts : RequestOptions) (env : Env)
    (ris : List (Resp → Resp)) (attempt remaining : Nat)
    (h : isBodyReusable (normalizeRequestOptions opts).body = true) :
    (normalizeRequestOptions opts).bodyCopy = Option.none
    ∧ ∀ b ∈ (requestLoop env ris (normalizeRequestOptions opts) attempt remaining).2,
        b = (normalizeRequestOptions opts).body := by
  have h' : isBodyReusable (normalizedBody opts) = true := h
  have hcopy : (normalizeRequestOptions opts).bodyCopy = Option.none := by
    show (if (normalizedBody opts).truthy && !(isBodyReusable (normalizedBody opts)) then
            structuredCloneB (normalizedBody opts)
          else
            Option.none) = Option.none
    rw [h']
    simp
  refine ⟨hcopy, fun b hb => ?_⟩
  have := requestLoop_bodies_const env ris (normalizeRequestOptions opts) remaining attempt b hb
  rw [this, attemptBody, hcopy]

/-- Witness for C8 (amended) at the string-body fixture with two
retries: bodyCopy is unset and attempt one of the loop exists. -/
theorem C8_replayable_body_reused_without_copy_witness :
    (normalizeRequestOptions (mergeDefaults u8)).bodyCopy = Option.none
    ∧ ∀ b ∈ (requestLoop envC1 [] (normalizeRequestOptions (mergeDefaults u8)) 0 2).2,
        b = (normalizeRequestOptions (mergeDefaults u8)).body :=
  C8_replayable_body_reused_without_copy (mergeDefaults u8) envC1 [] 0 2 rfl

/-- The initial context of the C2 counterexample. -/
def ctx2 : RequestContext := { url := "I", options := mergeDefaults {} }

/-- First interceptor of the C2 counterexample: replaces the url by A. -/
def i2a : ReqInterceptor := fun _ => some { url := some "A" }

/-- Second interceptor of the C2 counterexample: replaces the url by
the url it RECEIVED with X appended, making visible which context the
chain hands to it. -/
def i2b : ReqInterceptor := fun c => some { url := some (c.url ++ "X") }

/-- An interceptor returning no replacement. -/
def i2none : ReqInterceptor := fun _ => Option.none

/-- C2 counterexample: under the claimed semantics (each callback
invoked with the in-flight value as replaced by its predecessors,
applyRequestInterceptorsSpec) the chain [i2a, i2b] over url I yields
AX; the code invokes every callback with the ORIGINAL context, so i2b
receives url I and the chain yields IX. The claim is false at this
concrete input. -/
theorem C2_counterexample_callbacks_see_initial_context :
    (applyRequestInterceptors [i2a, i2b] ctx2).url = "IX"
    ∧ (applyRequestInterceptorsSpec [i2a, i2b] ctx2).url = "AX"
    ∧ (applyRequestInterceptors [i2a, i2b] ctx2).url ≠
        (applyRequestInterceptorsSpec [i2a, i2b] ctx2).url := by
  refine ⟨rfl, rfl, by decide⟩

/-- C2 (amended): the interceptors run sequentially in registration
order, but each callback is invoked with the INITIAL context, not the
in-flight value; the returned context is still the left-to-right fold
of the replacements (each computed from the initial context) over the
initial context, and a callback that returns no replacement leaves the
value from the previous step unchanged. Stated as the compositional
step equation for appending one more interceptor.  -/
theorem C2_request_interceptor_fold (is : List ReqInterceptor) (i : ReqInterceptor)
    (ctx : RequestContext) :
    (applyRequestInterceptors (is ++ [i]) ctx =
      (match i ctx with
       | some r =>
         { url := r.url.getD (applyRequestInterceptors is ctx).url,
           options := r.options.getD (applyRequestInterceptors is ctx).options }
       | Option.none => applyRequestInterceptors is ctx))
    ∧ (i ctx = Option.none →
        applyRequestInterceptors (is ++ [i]) ctx = applyRequestInterceptors is ctx) := by
  constructor
  · simp only [applyRequestInterceptors, List.foldl_append, List.foldl_cons, List.foldl_nil]
  · intro hnone
    simp only [applyRequestInterceptors, List.foldl_append, List.foldl_cons, List.foldl_nil,
      hnone]

/-- Witness for C2 (amended): appending a no-replacement interceptor
changes nothing, and appending i2b to [i2a] folds i2b's replacement —
computed from the initial context — onto the previous result. -/
theorem C2_request_interceptor_fold_witness :
    applyRequestInterceptors [i2a, i2none] ctx2 = applyRequestInterceptors [i2a] ctx2
    ∧ (applyRequestInterceptors [i2a, i2b] ctx2).url = "IX" :=
  ⟨(C2_request_interceptor_fold [i2a] i2none ctx2).2 rfl,
   by
    have h := (C2_request_interceptor_fold [i2a] i2b ctx2).1
    rw [show ([i2a] ++ [i2b]) = [i2a, i2b] from rfl] at h
    rw [h]
    rfl⟩

/-- The catch classification leaves any non-AbortError untouched. -/
theorem classifyCatch_other (ua : Bool) (e : JsError) (h : e.name ≠ "AbortError") :
    classifyCatch ua e = e := by
  simp [classifyCatch, h]

/-- When fetch fails every attempt with a retryable error, the loop
runs through its whole budget: remaining + 1 transport invocations
from any starting attempt, ending in the error of the last attempt. -/
theorem requestLoop_all_fail (env : Env) (ris : List (Resp → Resp)) (o : RequestOptions)
    (e : Nat → JsError)
    (hf : ∀ i b, env.fetch i b = Except.error (e i))
    (hn : ∀ i, (e i).name ≠ "AbortError" ∧ (e i).name ≠ "TimeoutError") :
    ∀ remaining attempt,
      requestLoop env ris o attempt remaining =
        (Except.error (e (attempt + remaining)),
         List.replicate (remaining + 1) (attemptBody o)) := by
  intro remaining
  induction remaining with
  | zero =>
    intro attempt
    rw [requestLoop, hf attempt (attemptBody o)]
    simp only [timeoutPromiseResult]
    rw [classifyCatch_other _ _ (hn attempt).1]
    rw [if_neg (by rintro (h | h); exact (hn attempt).1 h; exact (hn attempt).2 h)]
    simp
  | succ remaining' ih =>
    intro attempt
    rw [requestLoop, hf attempt (attemptBody o)]
    simp only [timeoutPromiseResult]
    rw [classifyCatch_other _ _ (hn attempt).1]
    rw [if_neg (by rintro (h | h); exact (hn attempt).1 h; exact (hn attempt).2 h)]
    rw [ih (attempt + 1)]
    rw [show attempt + 1 + remaining' = attempt + (remaining' + 1) from by omega]
    rfl

/-- When the first j attempts from a starting point fail retryably and
attempt j succeeds (with j within the remaining budget), the loop
returns the interceptor-processed success after exactly j + 1
transport invocations. -/
theorem requestLoop_succeeds_after (env : Env) (ris : List (Resp → Resp)) (o : RequestOptions)
    (r : Resp) :
    ∀ (j remaining attempt : Nat), j ≤ remaining →
      (∀ i, i < j → ∃ e : JsError,
          env.fetch (attempt + i) (attemptBody o) = Except.error e
          ∧ e.name ≠ "AbortError" ∧ e.name ≠ "TimeoutError") →
      env.fetch (attempt + j) (attemptBody o) = Except.ok r →
      requestLoop env ris o attempt remaining =
        (Except.ok (applyResponseInterceptors ris r),
         List.replicate (j + 1) (attemptBody o)) := by
  intro j
  induction j with
  | zero =>
    intro remaining attempt _ _ hok
    rw [Nat.add_zero] at hok
    rw [requestLoop, hok]
    rfl
  | succ j' ih =>
    intro remaining attempt hle hfail hok
    obtain ⟨e0, he0, hn1, hn2⟩ := hfail 0 (Nat.succ_pos j')
    rw [Nat.add_zero] at he0
    rw [requestLoop, he0]
    simp only [timeoutPromiseResult]
    rw [classifyCatch_other _ _ hn1]
    rw [if_neg (by rintro (h | h); exact hn1 h; exact hn2 h)]
    obtain ⟨remaining', rfl⟩ : ∃ rem, remaining = rem + 1 := ⟨remaining - 1, by omega⟩
    show ((requestLoop env ris o (attempt + 1) remaining').1,
          attemptBody o :: (requestLoop env ris o (attempt + 1) remaining').2) =
        (Except.ok (applyResponseInterceptors ris r),
         List.replicate (j' + 1 + 1) (attemptBody o))
    rw [ih remaining' (attempt + 1) (by omega)
      (fun i hi => by
        obtain ⟨e, he, ha, hb⟩ := hfail (i + 1) (by omega)
        exact ⟨e, by rw [show attempt + 1 + i = attempt + (i + 1) from by omega]; exact he,
          ha, hb⟩)
      (by rw [show attempt + 1 + j' = attempt + (j' + 1) from by omega]; exact hok)]
    rfl

/-- C3: with retries = N against a transport that fails every attempt
with a retryable (non-abort, non-timeout) error, the loop invokes the
transport exactly N + 1 times and the caller receives the error of the
last attempt; conversely, when some attempt k succeeds after retryable
failures, the (interceptor-processed) response is returned at once
after exactly k + 1 invocations. -/
theorem C3_retry_count_and_last_error (env : Env) (ris : List (Resp → Resp))
    (o : RequestOptions) (N : Nat) (e : Nat → JsError) (r : Resp) :
    ((∀ i b, env.fetch i b = Except.error (e i)) →
     (∀ i, (e i).name ≠ "AbortError" ∧ (e i).name ≠ "TimeoutError") →
       (requestLoop env ris o 0 N).1 = Except.error (e N)
       ∧ (requestLoop env ris o 0 N).2.length = N + 1)
    ∧ (∀ k, k ≤ N →
        (∀ i, i < k → (∀ b, env.fetch i b = Except.error (e i))
            ∧ (e i).name ≠ "AbortError" ∧ (e i).name ≠ "TimeoutError") →
        (∀ b, env.fetch k b = Except.ok r) →
          (requestLoop env ris o 0 N).1 = Except.ok (applyResponseInterceptors ris r)
          ∧ (requestLoop env ris o 0 N).2.length = k + 1) := by
  constructor
  · intro hf hn
    rw [requestLoop_all_fail env ris o e hf hn N 0]
    simp
  · intro k hk hfail hok
    rw [requestLoop_succeeds_after env ris o r k N 0 hk
      (fun i hi => ⟨e i, by simpa using (hfail i hi).1 (attemptBody o),
        (hfail i hi).2.1, (hfail i hi).2.2⟩)
      (by simpa using hok (attemptBody o))]
    simp

/-- A response fixture for successful-transport scenarios. -/
def respC3 : Resp :=
  { ok := true, status := 200, statusText := "OK", headers := [], body := Option.none }

/-- An environment whose transport succeeds on every attempt. -/
def envOkC3 : Env :=
  { fetch := fun _ _ => Except.ok respC3
    userAbortedAtCatch := fun _ => false
    uploadOutcome := Except.ok respC3 }

/-- Witness for C3: with retries = 2, an always-failing transport is
invoked 3 times and its error surfaces; an immediately successful
transport is invoked once and the response surfaces. -/
theorem C3_retry_count_and_last_error_witness :
    ((requestLoop envC1 [] (mergeDefaults {}) 0 2).1 =
        Except.error { name := "NetworkError", message := "network failure" }
      ∧ (requestLoop envC1 [] (mergeDefaults {}) 0 2).2.length = 3)
    ∧ ((requestLoop envOkC3 [] (mergeDefaults {}) 0 2).1 =
        Except.ok (applyResponseInterceptors [] respC3)
      ∧ (requestLoop envOkC3 [] (mergeDefaults {}) 0 2).2.length = 1) :=
  ⟨(C3_retry_count_and_last_error envC1 [] (mergeDefaults {}) 2
      (fun _ => { name := "NetworkError", message := "network failure" }) respC3).1
      (fun _ _ => rfl) (fun _ => ⟨by decide, by decide⟩),
   (C3_retry_count_and_last_error envOkC3 [] (mergeDefaults {}) 2
      (fun _ => { name := "NetworkError", message := "network failure" }) respC3).2
      0 (by omega) (fun i hi => absurd hi (Nat.not_lt_zero i)) (fun _ => rfl)⟩

/-- C4: classification of a failed attempt. A fetch AbortError (the
composed signal fired, whether the user signal was already aborted at
call time or fired mid-flight) is reported as the user-cancellation
AbortError when the user signal is in the aborted state at catch time
(UserCancelled), and as TimeoutError when the deadline fired with the
user signal silent (DeadlineExceeded); either classification makes the
loop throw after ONE invocation regardless of the remaining attempt
budget; any other error passes through the classification untouched
and is retryable (the loop schedules another attempt when budget
remains). -/
theorem C4_cancellation_classification_no_retry (env : Env) (ris : List (Resp → Resp))
    (o : RequestOptions) (retries : Nat) (e e2 : JsError) (ua : Bool) :
    (e.name = "AbortError" →
      timeoutPromiseResult true (Except.error e) =
        Except.error { name := "AbortError", message := "Request aborted by user" }
      ∧ timeoutPromiseResult false (Except.error e) =
        Except.error { name := "TimeoutError", message := "Request timed out" })
    ∧ (e.name ≠ "AbortError" →
        timeoutPromiseResult ua (Except.error e) = Except.error e)
    ∧ (classifiedOutcome env o 0 = Except.error e2 →
        (e2.name = "AbortError" ∨ e2.name = "TimeoutError") →
        requestLoop env ris o 0 retries = (Except.error e2, [attemptBody o]))
    ∧ (classifiedOutcome env o 0 = Except.error e2 →
        e2.name ≠ "AbortError" → e2.name ≠ "TimeoutError" →
        ∀ n, (requestLoop env ris o 0 (n + 1)).2.length =
          1 + (requestLoop env ris o 1 n).2.length) := by
  refine ⟨?_, ?_, ?_, ?_⟩
  · intro h
    constructor
    · simp [timeoutPromiseResult, classifyCatch, h]
    · simp [timeoutPromiseResult, classifyCatch, h]
  · intro h
    simp [timeoutPromiseResult, classifyCatch, h]
  · intro h1 h2
    have h1' : timeoutPromiseResult (env.userAbortedAtCatch 0) (env.fetch 0 (attemptBody o)) =
        Except.error e2 := h1
    rw [requestLoop]
    simp only [h1']
    rw [if_pos h2]
  · intro h1 hn1 hn2 n
    have h1' : timeoutPromiseResult (env.userAbortedAtCatch 0) (env.fetch 0 (attemptBody o)) =
        Except.error e2 := h1
    rw [requestLoop]
    simp only [h1']
    rw [if_neg (by rintro (h | h); exact hn1 h; exact hn2 h)]
    show (attemptBody o :: (requestLoop env ris o (0 + 1) n).2).length =
        1 + (requestLoop env ris o 1 n).2.length
    simp only [List.length_cons, Nat.zero_add]
    omega

/-- An environment whose fetch rejects with an AbortError while the
user signal is observed aborted: a user cancellation. -/
def envAbortC4 : Env :=
  { fetch := fun _ _ =>
      Except.error { name := "AbortError", message := "The operation was aborted" }
    userAbortedAtCatch := fun _ => true
    uploadOutcome := Except.ok respC3 }

/-- Witness for C4 at concrete inputs: user-cancel and deadline
classifications of an AbortError, untouched passthrough of a network
error, single-invocation failure under a user cancellation with a
budget of 5 retries, and a second invocation scheduled for a
retryable error. -/
theorem C4_cancellation_classification_no_retry_witness :
    (timeoutPromiseResult true
        (Except.error { name := "AbortError", message := "The operation was aborted" }) =
      Except.error { name := "AbortError", message := "Request aborted by user" })
    ∧ (timeoutPromiseResult false
        (Except.error { name := "AbortError", message := "The operation was aborted" }) =
      Except.error { name := "TimeoutError", message := "Request timed out" })
    ∧ (timeoutPromiseResult true
        (Except.error { name := "NetworkError", message := "network failure" }) =
      Except.error { name := "NetworkError", message := "network failure" })
    ∧ (requestLoop envAbortC4 [] (mergeDefaults {}) 0 5 =
        (Except.error { name := "AbortError", message := "Request aborted by user" },
         [attemptBody (mergeDefaults {})]))
    ∧ ((requestLoop envC1 [] (mergeDefaults {}) 0 2).2.length =
        1 + (requestLoop envC1 [] (mergeDefaults {}) 1 1).2.length) :=
  ⟨((C4_cancellation_classification_no_retry envAbortC4 [] (mergeDefaults {}) 5
      { name := "AbortError", message := "The operation was aborted" }
      { name := "AbortError", message := "Request aborted by user" } true).1 rfl).1,
   ((C4_cancellation_classification_no_retry envAbortC4 [] (mergeDefaults {}) 5
      { name := "AbortError", message := "The operation was aborted" }
      { name := "AbortError", message := "Request aborted by user" } true).1 rfl).2,
   (C4_cancellation_classification_no_retry envC1 [] (mergeDefaults {}) 5
      { name := "NetworkError", message := "network failure" }
      { name := "NetworkError", message := "network failure" } true).2.1 (by decide),
   (C4_cancellation_classification_no_retry envAbortC4 [] (mergeDefaults {}) 5
      { name := "AbortError", message := "The operation was aborted" }
      { name := "AbortError", message := "Request aborted by user" } true).2.2.1
      rfl (Or.inl rfl),
   (C4_cancellation_classification_no_retry envC1 [] (mergeDefaults {}) 2
      { name := "NetworkError", message := "network failure" }
      { name := "NetworkError", message := "network failure" } true).2.2.2
      rfl (by decide) (by decide) 1⟩

/-- With no request interceptors registered, request is the three-way
dispatch on the normalized options: download path, upload path, or the
retry loop. Definitional, since the empty interceptor fold returns the
context unchanged. -/
theorem request_eq_dispatch (env : Env) (ris : List (Resp → Resp)) (url : String)
    (u : UserOptions) :
    request env ris [] url u =
      if u.onDownloadProgress then
        ((downloadWithProgress env (normalizeRequestOptions (mergeDefaults u))).1,
         [(normalizeRequestOptions (mergeDefaults u)).body])
      else if u.onUploadProgress then
        (env.uploadOutcome, [(normalizeRequestOptions (mergeDefaults u)).body])
      else
        requestLoop env ris (normalizeRequestOptions (mergeDefaults u)) 0
          (normalizeRequestOptions (mergeDefaults u)).retries := rfl

/-- A classified success on the current attempt makes the loop return
the interceptor-processed response at once. -/
theorem requestLoop_first_ok (env : Env) (ris : List (Resp → Resp)) (o : RequestOptions)
    (attempt remaining : Nat) (r : Resp)
    (h : classifiedOutcome env o attempt = Except.ok r) :
    requestLoop env ris o attempt remaining =
      (Except.ok (applyResponseInterceptors ris r), [attemptBody o]) := by
  have h' : timeoutPromiseResult (env.userAbortedAtCatch attempt)
      (env.fetch attempt (attemptBody o)) = Except.ok r := h
  rw [requestLoop]
  simp only [h']

/-- C5 (amended): response interceptors are applied to the final
successful response on the Direct path ONLY; the Download path and the
Upload path both return their transport outcome directly, without
response-interceptor application (the right-hand sides below do not
involve the registered interceptors at all). -/
theorem C5_response_interceptors_only_direct (env : Env) (ris : List (Resp → Resp))
    (url : String) (u : UserOptions) (r : Resp) :
    (u.onDownloadProgress = true →
      (request env ris [] url u).1 =
        (downloadWithProgress env (normalizeRequestOptions (mergeDefaults u))).1)
    ∧ (u.onDownloadProgress = false → u.onUploadProgress = true →
        (request env ris [] url u).1 = env.uploadOutcome)
    ∧ (u.onDownloadProgress = false → u.onUploadProgress = false →
        classifiedOutcome env (normalizeRequestOptions (mergeDefaults u)) 0 = Except.ok r →
        (request env ris [] url u).1 = Except.ok (applyResponseInterceptors ris r)) := by
  refine ⟨?_, ?_, ?_⟩
  · intro h
    rw [request_eq_dispatch]
    simp [h]
  · intro hd hu
    rw [request_eq_dispatch]
    simp [hd, hu]
  · intro hd hu hok
    rw [request_eq_dispatch]
    simp only [hd, hu, if_false, Bool.false_eq_true]
    rw [requestLoop_first_ok env ris (normalizeRequestOptions (mergeDefaults u)) 0
      (normalizeRequestOptions (mergeDefaults u)).retries r hok]

/-- A response interceptor that rewrites every status to 999, used to
make interceptor application observable. -/
def risC5 : List (Resp → Resp) := [fun r => { r with status := 999 }]

/-- The transport response of the download counterexamples: ok, status
201, with headers and a two-chunk readable body. -/
def respC6 : Resp :=
  { ok := true, status := 201, statusText := "Created",
    headers := [("x-trace", "t1"), ("content-length", "4")], body := some [[1, 2], [3, 4]] }

/-- An environment whose transport returns respC6 on every attempt. -/
def envC6 : Env :=
  { fetch := fun _ _ => Except.ok respC6
    userAbortedAtCatch := fun _ => false
    uploadOutcome := Except.ok respC3 }

/-- The response the download path actually delivers for respC6: the
new Response(stream2) object — default status 200, no headers, the
teed body chunks. -/
def deliveredC6 : Resp :=
  { ok := true, status := 200, statusText := "", headers := [], body := some [[1, 2], [3, 4]] }

/-- The download-progress user options. -/
def uC5 : UserOptions := { onDownloadProgress := true }

/-- C5 counterexample: with one response interceptor registered (it
maps every response to status 999), a download-progress request
delivers the un-intercepted new Response (status 200); had the
interceptors been applied to the final successful response of the
Download dispatch, the delivered response would carry status 999. The
claim that the Download path applies response interceptors is false at
this input. -/
theorem C5_counterexample_download_skips_response_interceptors :
    (request envC6 risC5 [] "/x" uC5).1 = Except.ok deliveredC6
    ∧ applyResponseInterceptors risC5 deliveredC6 = { deliveredC6 with status := 999 }
    ∧ (request envC6 risC5 [] "/x" uC5).1 ≠
        Except.ok (applyResponseInterceptors risC5 deliveredC6) := by
  refine ⟨rfl, rfl, ?_⟩
  intro h
  rw [show (request envC6 risC5 [] "/x" uC5).1 = Except.ok deliveredC6 from rfl] at h
  injection h with h2
  exact absurd (congrArg Resp.status h2) (by decide)

/-- Witness for C5 (amended): the three dispatch shapes at concrete
inputs — a download request delivers the raw download outcome, an
upload request delivers the raw upload outcome, and a direct request
delivers the interceptor-processed response. -/
theorem C5_response_interceptors_only_direct_witness :
    (request envC6 risC5 [] "/x" uC5).1 =
      (downloadWithProgress envC6 (normalizeRequestOptions (mergeDefaults uC5))).1
    ∧ (request envC6 risC5 [] "/x" { onUploadProgress := true }).1 = envC6.uploadOutcome
    ∧ (request envOkC3 risC5 [] "/x" {}).1 =
        Except.ok (applyResponseInterceptors risC5 respC3) :=
  ⟨(C5_response_interceptors_only_direct envC6 risC5 "/x" uC5 respC3).1 rfl,
   (C5_response_interceptors_only_direct envC6 risC5 "/x"
      { onUploadProgress := true } respC3).2.1 rfl rfl,
   (C5_response_interceptors_only_direct envOkC3 risC5 "/x" {} respC3).2.2 rfl rfl rfl⟩

/-- The normalized options of a plain download-progress request. -/
def oC6 : RequestOptions := normalizeRequestOptions (mergeDefaults uC5)

/-- C6 counterexample: the transport response has status 201 and two
headers; the response delivered to the caller is the teed body inside
new Response(stream2) — the body chunks are passed through untouched,
but the delivered status is the constructor default 200 and the
delivered headers are empty: the original status and headers are NOT
carried over, refuting the claim as stated. -/
theorem C6_counterexample_status_headers_dropped :
    (downloadWithProgress envC6 oC6).1 = Except.ok deliveredC6
    ∧ deliveredC6.body = respC6.body
    ∧ deliveredC6.status ≠ respC6.status
    ∧ deliveredC6.headers ≠ respC6.headers := by
  refine ⟨rfl, rfl, by decide, by decide⟩

/-- C6 (amended): for every download-progress request whose transport
response is ok with a readable body, the caller receives the teed body
chunks untouched inside a new response object — but that object is
new Response(stream2) with the constructor defaults: status 200, ok,
empty statusText and NO headers; the original response's status and
headers are not propagated. -/
theorem C6_download_body_passthrough_default_response (env : Env) (o : RequestOptions)
    (r : Resp) (chunks : List (List Nat))
    (h1 : env.fetch 0 o.body = Except.ok r) (h2 : r.ok = true)
    (h3 : r.body = some chunks) :
    (downloadWithProgress env o).1 =
      Except.ok { ok := true, status := 200, statusText := "", headers := [],
                  body := some chunks } := by
  simp only [downloadWithProgress, h1, h3, h2, if_true]

/-- Witness for C6 (amended) at the concrete download fixture. -/
theorem C6_download_body_passthrough_default_response_witness :
    (downloadWithProgress envC6 oC6).1 =
      Except.ok { ok := true, status := 200, statusText := "", headers := [],
                  body := some [[1, 2], [3, 4]] } :=
  C6_download_body_passthrough_default_response envC6 oC6 respC6 [[1, 2], [3, 4]]
    rfl rfl rfl

/-- C10: a request with a download-progress or an upload-progress
callback configured bypasses the retry loop: exactly one transport
invocation happens, for ANY environment (including one whose transport
fails with a retryable error), and the delivered result does not
depend on the retries and retryDelay options at all. -/
theorem C10_progress_paths_single_attempt (env : Env) (ris : List (Resp → Resp))
    (url : String) (u : UserOptions) (r1 d1 r2 d2 : Nat) :
    (u.onDownloadProgress = true →
      (request env ris [] url u).2.length = 1
      ∧ (request env ris [] url { u with retries := some r1, retryDelay := some d1 }).1 =
          (request env ris [] url { u with retries := some r2, retryDelay := some d2 }).1)
    ∧ (u.onUploadProgress = true →
        (request env ris [] url u).2.length = 1
        ∧ (request env ris [] url { u with retries := some r1, retryDelay := some d1 }).1 =
            (request env ris [] url { u with retries := some r2, retryDelay := some d2 }).1) := by
  constructor
  · intro h
    constructor
    · rw [request_eq_dispatch]
      simp [h]
    · rw [request_eq_dispatch, request_eq_dispatch]
      simp only [h]
      rfl
  · intro h
    by_cases hd : u.onDownloadProgress = true
    · constructor
      · rw [request_eq_dispatch]
        simp [hd]
      · rw [request_eq_dispatch, request_eq_dispatch]
        simp only [hd]
        rfl
    · have hd' : u.onDownloadProgress = false := by
        cases hval : u.onDownloadProgress
        · rfl
        · exact absurd hval hd
      constructor
      · rw [request_eq_dispatch]
        simp [hd', h]
      · rw [request_eq_dispatch, request_eq_dispatch]
        simp only [hd', h]
        rfl

/-- Witness for C10: a download request and an upload request against
the always-failing transport both make exactly one invocation, and
their results are unchanged when retries and retryDelay vary. -/
theorem C10_progress_paths_single_attempt_witness :
    ((request envC1 [] [] "/x" uC5).2.length = 1
      ∧ (request envC1 [] [] "/x" { uC5 with retries := some 5, retryDelay := some 1 }).1 =
          (request envC1 [] [] "/x" { uC5 with retries := some 0, retryDelay := some 9 }).1)
    ∧ ((request envC1 [] [] "/x" { onUploadProgress := true }).2.length = 1
      ∧ (request envC1 [] [] "/x"
            { UserOptions.mk Option.none [] Body.none Option.none (some 5) (some 1) false true with
              retries := some 5, retryDelay := some 1 }).1 =
          (request envC1 [] [] "/x"
            { UserOptions.mk Option.none [] Body.none Option.none (some 5) (some 1) false true with
              retries := some 0, retryDelay := some 9 }).1) :=
  ⟨(C10_progress_paths_single_attempt envC1 [] "/x" uC5 5 1 0 9).1 rfl,
   (C10_progress_paths_single_attempt envC1 [] "/x"
      (UserOptions.mk Option.none [] Body.none Option.none (some 5) (some 1) false true)
      5 1 0 9).2 rfl⟩

/-- Well-formedness of a registry state: the map's keys are exactly the
id order list, the ids are strictly increasing, and every id is below
the id counter. -/
def MInv {T : Type} (m : InterceptorManager T) : Prop :=
  m.interceptors.map Prod.fst = m.interceptorIds
  ∧ List.Sorted (· < ·) m.interceptorIds
  ∧ ∀ id ∈ m.interceptorIds, id < m.nextId

/-- Taking keys commutes with filtering entries by key. -/
theorem map_fst_filter_ne {T : Type} (id : Nat) :
    ∀ l : List (Nat × T),
      (l.filter (fun p => p.1 != id)).map Prod.fst =
        (l.map Prod.fst).filter (fun i => i != id) := by
  intro l
  induction l with
  | nil => rfl
  | cons p rest ih =>
    by_cases h : p.1 = id
    · simp [List.filter_cons, h, ih]
    · simp [List.filter_cons, h, ih]

/-- The freshly constructed registry is well formed. -/
theorem minv_empty (T : Type) : MInv (mEmpty T) :=
  ⟨rfl, List.sorted_nil, by intro id h; cases h⟩

/-- use preserves well-formedness. -/
theorem minv_use {T : Type} (m : InterceptorManager T) (t : T) (h : MInv m) :
    MInv (mUse m t).2 := by
  obtain ⟨h1, h2, h3⟩ := h
  refine ⟨?_, ?_, ?_⟩
  · simp [mUse, h1]
  · simp only [mUse]
    exact List.pairwise_append.mpr ⟨h2, List.sorted_singleton _, fun a ha b hb => by
      rw [List.mem_singleton] at hb
      subst hb
      exact h3 a ha⟩
  · intro id hid
    simp only [mUse, List.mem_append, List.mem_singleton] at hid
    rcases hid with hid | hid
    · exact Nat.lt_succ_of_lt (h3 id hid)
    · subst hid
      exact Nat.lt_succ_self _

/-- eject preserves well-formedness. -/
theorem minv_eject {T : Type} (m : InterceptorManager T) (id : Nat) (h : MInv m) :
    MInv (mEject m id) := by
  obtain ⟨h1, h2, h3⟩ := h
  refine ⟨?_, ?_, ?_⟩
  · simp only [mEject]
    rw [map_fst_filter_ne, h1]
  · exact List.Pairwise.filter _ h2
  · intro i hi
    simp only [mEject] at hi
    exact h3 i (List.mem_of_mem_filter hi)

/-- Every single operation preserves well-formedness. -/
theorem minv_applyMOp {T : Type} (m : InterceptorManager T) (op : MOp T) (h : MInv m) :
    MInv (applyMOp m op) := by
  cases op with
  | use t => exact minv_use m t h
  | eject id => exact minv_eject m id h

/-- Every operation sequence preserves well-formedness. -/
theorem minv_applyMOps {T : Type} :
    ∀ (ops : List (MOp T)) (m : InterceptorManager T), MInv m → MInv (applyMOps m ops) := by
  intro ops
  induction ops with
  | nil => intro m h; exact h
  | cons op rest ih => intro m h; exact ih (applyMOp m op) (minv_applyMOp m op h)

/-- The ids returned across an operation sequence are strictly
increasing, and all of them are at least the starting counter: a use
returns the current counter and bumps it, and nothing ever lowers it,
so no id is ever reused — not even after its registration is ejected. -/
theorem opsReturnedIds_sorted_from {T : Type} :
    ∀ (ops : List (MOp T)) (m : InterceptorManager T),
      List.Sorted (· < ·) (opsReturnedIds m ops)
      ∧ ∀ x ∈ opsReturnedIds m ops, m.nextId ≤ x := by
  intro ops
  induction ops with
  | nil =>
    intro m
    exact ⟨List.sorted_nil, by intro x hx; cases hx⟩
  | cons op rest ih =>
    intro m
    cases op with
    | use t =>
      constructor
      · rw [opsReturnedIds, List.sorted_cons]
        refine ⟨fun b hb => ?_, (ih _).1⟩
        have hle := (ih (applyMOp m (MOp.use t))).2 b hb
        have hnext : (applyMOp m (MOp.use t)).nextId = m.nextId + 1 := rfl
        omega
      · intro x hx
        rw [opsReturnedIds] at hx
        rcases List.mem_cons.mp hx with hx | hx
        · subst hx
          exact Nat.le_refl _
        · have hle := (ih (applyMOp m (MOp.use t))).2 x hx
          have hnext : (applyMOp m (MOp.use t)).nextId = m.nextId + 1 := rfl
          omega
    | eject id =>
      constructor
      · rw [opsReturnedIds]
        exact (ih _).1
      · intro x hx
        rw [opsReturnedIds] at hx
        have hle := (ih (applyMOp m (MOp.eject id))).2 x hx
        have hnext : (applyMOp m (MOp.eject id)).nextId = m.nextId := rfl
        omega

/-- Traversing an association list with unique keys by looking each of
its own keys up yields exactly its values, in order. -/
theorem filterMap_find_self {T : Type} :
    ∀ l : List (Nat × T), (l.map Prod.fst).Nodup →
      (l.map Prod.fst).filterMap
          (fun id => (l.find? (fun p => p.1 == id)).map Prod.snd) =
        l.map Prod.snd := by
  intro l
  induction l with
  | nil => intro _; rfl
  | cons p rest ih =>
    intro hnd
    rw [List.map_cons, List.nodup_cons] at hnd
    obtain ⟨hnotin, hnd'⟩ := hnd
    rw [List.map_cons, List.map_cons, List.filterMap_cons]
    have hfind : ((p :: rest).find? (fun q => q.1 == p.1)) = some p := by
      rw [List.find?_cons_of_pos]
      simp
    rw [hfind]
    have hcongr :
        (rest.map Prod.fst).filterMap
            (fun id => ((p :: rest).find? (fun q => q.1 == id)).map Prod.snd) =
          (rest.map Prod.fst).filterMap
            (fun id => (rest.find? (fun q => q.1 == id)).map Prod.snd) := by
      apply List.filterMap_congr
      intro id hid
      have hne : p.1 ≠ id := fun heq => hnotin (heq ▸ hid)
      have : (p.1 == id) = false := by
        exact beq_false_of_ne hne
      rw [List.find?_cons, this]
    show Prod.snd p :: (rest.map Prod.fst).filterMap
          (fun id => ((p :: rest).find? (fun q => q.1 == id)).map Prod.snd) =
        Prod.snd p :: rest.map Prod.snd
    rw [hcongr, ih hnd']

/-- C9: for every sequence of use/eject operations from a fresh
registry — (a) the ids handed back by the use calls are strictly
increasing, hence unique and never reused even after removal; (b) the
map's keys are exactly the surviving id list; (c) size() equals the
number of currently registered ids; (d) the surviving ids are in
ascending registration order; and (e) a forward traversal visits
exactly the surviving registrations' callbacks in that order, skipping
ejected ones. -/
theorem C9_registry_invariants (T : Type) (ops : List (MOp T)) :
    List.Sorted (· < ·) (opsReturnedIds (mEmpty T) ops)
    ∧ (applyMOps (mEmpty T) ops).interceptors.map Prod.fst =
        (applyMOps (mEmpty T) ops).interceptorIds
    ∧ mSize (applyMOps (mEmpty T) ops) = (applyMOps (mEmpty T) ops).interceptorIds.length
    ∧ List.Sorted (· < ·) (applyMOps (mEmpty T) ops).interceptorIds
    ∧ mForEachList (applyMOps (mEmpty T) ops) =
        (applyMOps (mEmpty T) ops).interceptors.map Prod.snd := by
  obtain ⟨h1, h2, h3⟩ := minv_applyMOps ops (mEmpty T) (minv_empty T)
  refine ⟨(opsReturnedIds_sorted_from ops (mEmpty T)).1, h1, ?_, h2, ?_⟩
  · rw [mSize, ← h1, List.length_map]
  · rw [mForEachList, ← h1]
    exact filterMap_find_self _ (by rw [h1]; exact h2.imp (fun h => Nat.ne_of_lt h))
